import Mathlib

/-!
Verification development for the telegram-video bot (`src/bot.py`).

The bot lets a user upload a video or animation; it downloads the file to a
temporary path, records it in the per-user `user_data` dictionary, and offers
two inline buttons (`original` / `compress`).  The callback handler either
sends the original document, or transcodes it with a fixed ffmpeg profile and
sends the result, then cleans up in a `finally` block.

We embed the handlers as pure state-transition functions.  The filesystem is
a list of existing paths; side effects (message edits, document sends,
subprocess invocations, log lines, unlinks) are recorded in an effect trace.
External nondeterminism (the temp-file name generator, the subprocess exit
status and stderr, and whether `send_document` raises) is passed in as
explicit oracle arguments.
-/

namespace TelegramVideo

/-- Kind of incoming message media (`message.video` / `message.animation` /
neither). -/
inductive MediaKind
  | video
  | animation
  | other
deriving DecidableEq, Repr

/-- Observable side effects of the handlers, in execution order. -/
inductive Effect
  | answerQuery
  | editMessage (text : String)
  | sendDocument (path : String) (filename : String)
  | replyText (text : String)
  | replyKeyboard (text : String)
  | runProcess (cmd : List String)
  | logError (msg : String)
  | unlink (path : String)
deriving DecidableEq, Repr

/-- The three `context.user_data` keys the bot uses.  `none` models an absent
key. -/
structure UserData where
  last_media_path : Option String := none
  last_media_mime : Option String := none
  last_media_filename : Option String := none
deriving DecidableEq, Repr

/-- Bot-visible state: which paths exist on disk, plus the per-user data. -/
structure BotState where
  fs : List String
  user_data : UserData
deriving DecidableEq, Repr

/-- Creating a file at `p` (`tempfile.NamedTemporaryFile(delete=False)` /
`download_to_drive`). -/
def fsCreate (fs : List String) (p : String) : List String :=
  if p ∈ fs then fs else p :: fs

/-- Deleting a file, `os.unlink p`: afterwards `p` no longer exists. -/
def fsUnlink (fs : List String) (p : String) : List String :=
  fs.filter (fun q => q ≠ p)

/-- Python truthiness of an optional string (`if not media_path`). -/
def truthy : Option String → Bool
  | none => false
  | some s => !s.isEmpty

/-- Model of `pathlib.Path(p).name`: the final path component (the characters after
the last `/`). -/
def pathName (p : String) : String :=
  String.mk ((p.toList.reverse.takeWhile (fun c => c ≠ '/')).reverse)

/-- Model of `pathlib.Path(p).suffix`: the extension with its dot.  Empty when the
final component has no dot, or its last dot is leading or trailing. -/
def pathSuffix (p : String) : String :=
  let cs := (pathName p).toList
  let revTail := cs.reverse.takeWhile (fun c => c ≠ '.')
  if revTail.length = cs.length then ""
  else if revTail.length = 0 then ""
  else if revTail.length + 1 = cs.length then ""
  else String.mk ('.' :: revTail.reverse)

/-- Reply sent when the message holds neither a video nor an animation. -/
def noMediaMsg : String := "لم أجد فيديو أو GIF في الرسالة — أرسل ملف فيديو أو GIF."

/-- The two-button choice prompt text. -/
def chooseMsg : String := "اختر ماذا تريد أن أفعل بالملف:"

/-- Reply for a decision event with no stored (or no longer existing) file. -/
def noFileMsg : String := "لا يوجد ملف محفوظ حالياً — أرسل ملفًا جديدًا."

/-- Progress message of the `original` branch. -/
def sendingOriginalMsg : String := "جارٍ إرسال الملف الأصلي..."

/-- Completion message of the `original` branch. -/
def sentOriginalMsg : String := "تم إرسال الملف الأصلي."

/-- Progress message of the `compress` branch. -/
def compressingMsg : String := "جارٍ ضغط الملف — يرجى الانتظار..."

/-- The user-visible compression-failure report, `"فشل الضغط: %s" % str(exc)`. -/
def compressFailedMsg (exc : String) : String := "فشل الضغط: " ++ exc

/-- Completion message of the `compress` branch. -/
def sentCompressedMsg : String := "تم إرسال الملف المضغوط."

/-- Exception message modelling a raise from `context.bot.send_document`. -/
def sendExnMsg : String := "send_document failed"

/-- The exact ffmpeg argument vector built inside `run_ffmpeg._run`. -/
def ffmpeg_cmd (input_path output_path : String) : List String :=
  ["ffmpeg",
   "-y",
   "-i",
   input_path,
   "-vf",
   "scale=\x27min(1280,iw)\x27:\x27min(720,ih)\x27:force_original_aspect_ratio=decrease",
   "-c:v",
   "libx264",
   "-preset",
   "veryfast",
   "-crf",
   "28",
   "-c:a",
   "aac",
   "-b:a",
   "128k",
   output_path]

/-- Outcome of the external ffmpeg process (oracle): its exit status and its
decoded stderr stream. -/
structure ProcResult where
  returncode : Int
  stderr : String
deriving DecidableEq, Repr

/-- The helper `run_ffmpeg`: invokes the process; on non-zero exit it logs the stderr and
raises `RuntimeError("ffmpeg failed")` (modelled as `Except.error` with the
exception's message), otherwise returns the output path.  The second component
is the effect trace. -/
def run_ffmpeg (input_path output_path : String) (proc : ProcResult) :
    Except String String × List Effect :=
  let cmd := ffmpeg_cmd input_path output_path
  if proc.returncode ≠ 0 then
    (Except.error "ffmpeg failed",
     [Effect.runProcess cmd, Effect.logError ("ffmpeg failed: " ++ proc.stderr)])
  else
    (Except.ok output_path, [Effect.runProcess cmd])

/-- Incoming media message: its kind and the optional `file_name` attribute of
the video/animation object. -/
structure IncomingMessage where
  kind : MediaKind
  file_name : Option String
deriving DecidableEq, Repr

/-- Common tail of `handle_media` for a supported upload: create the temp file
(its name is the oracle `tmpStem` plus the filename's suffix), download into
it, store the three `user_data` keys, send the choice keyboard. -/
def ingest (st : BotState) (tmpStem filename mime : String) :
    BotState × List Effect :=
  let tmp_in_path := tmpStem ++ pathSuffix filename
  let fs1 := fsCreate st.fs tmp_in_path
  let ud : UserData :=
    { last_media_path := some tmp_in_path
      last_media_mime := some mime
      last_media_filename := some filename }
  ({ fs := fs1, user_data := ud }, [Effect.replyKeyboard chooseMsg])

/-- The upload handler `handle_media`: dispatch on the media kind; unsupported messages get a
diagnostic reply and change nothing. -/
def handle_media (msg : IncomingMessage) (st : BotState) (tmpStem : String) :
    BotState × List Effect :=
  match msg.kind with
  | MediaKind.video => ingest st tmpStem (msg.file_name.getD "video.mp4") "video"
  | MediaKind.animation => ingest st tmpStem (msg.file_name.getD "animation.gif") "animation"
  | MediaKind.other => (st, [Effect.replyText noMediaMsg])

/-- Result of a callback invocation: final state, effect trace, and the
exception propagating out of the handler, if any. -/
structure CbResult where
  state : BotState
  effects : List Effect
  exn : Option String
deriving DecidableEq, Repr

/-- The `compress` branch of the `try` body (lines 133–155), with the output
temp path already computed: create the output temp file, run ffmpeg; on
failure edit the message with `str(exc)` and return; on success send the
output as a document named after the output path and unlink the output. -/
def compressBody (st : BotState) (mp tmp_out_path : String) (proc : ProcResult)
    (sendRaises : Bool) : BotState × List Effect × Option String :=
  let st1 : BotState := { st with fs := fsCreate st.fs tmp_out_path }
  let r := run_ffmpeg mp tmp_out_path proc
  match r.1 with
  | Except.error e =>
      (st1, [Effect.editMessage compressingMsg] ++ r.2 ++
            [Effect.editMessage (compressFailedMsg e)], none)
  | Except.ok out_path =>
      if sendRaises then
        (st1, [Effect.editMessage compressingMsg] ++ r.2, some sendExnMsg)
      else
        ({ st1 with fs := fsUnlink st1.fs out_path },
         [Effect.editMessage compressingMsg] ++ r.2 ++
         [Effect.sendDocument out_path (pathName out_path),
          Effect.editMessage sentCompressedMsg,
          Effect.unlink out_path], none)

/-- The `try` body of `button_cb` (lines 125–155): returns the state after the
body, its effect trace, and an exception if one was raised.  `outStem` is the
oracle naming the output temp file, `proc` the ffmpeg outcome, `sendRaises`
whether `send_document` raises. -/
def tryBody (data : String) (st : BotState) (mp : String) (mime : Option String)
    (filename : String) (outStem : String) (proc : ProcResult)
    (sendRaises : Bool) : BotState × List Effect × Option String :=
  if data = "original" then
    if sendRaises then
      (st, [Effect.editMessage sendingOriginalMsg], some sendExnMsg)
    else
      (st, [Effect.editMessage sendingOriginalMsg,
            Effect.sendDocument mp filename,
            Effect.editMessage sentOriginalMsg], none)
  else if data = "compress" then
    let sfx := if mime = some "video" ∨ mime = some "animation" then ".mp4"
               else pathSuffix filename
    compressBody st mp (outStem ++ sfx) proc sendRaises
  else
    (st, [], none)

/-- The `finally` block of `button_cb` (lines 157–167): unlink the input if it
still exists (best effort), then pop the three `user_data` keys. -/
def finallyCleanup (st : BotState) (media_path : Option String) :
    BotState × List Effect :=
  if truthy media_path ∧ media_path.getD "" ∈ st.fs then
    ({ fs := fsUnlink st.fs (media_path.getD ""), user_data := {} },
     [Effect.unlink (media_path.getD "")])
  else
    ({ st with user_data := {} }, [])

/-- The decision handler `button_cb`: answer the query, read the three keys, bail out with a
diagnostic when no stored path exists, otherwise run the decision body under
a `try`/`finally` that always cleans up. -/
def button_cb (data : String) (st : BotState) (outStem : String)
    (proc : ProcResult) (sendRaises : Bool) : CbResult :=
  let ud := st.user_data
  let media_path := ud.last_media_path
  let mime := ud.last_media_mime
  let filename := ud.last_media_filename.getD "file"
  if ¬ (truthy media_path ∧ media_path.getD "" ∈ st.fs) then
    { state := st
      effects := [Effect.answerQuery, Effect.editMessage noFileMsg]
      exn := none }
  else
    let mp := media_path.getD ""
    let body := tryBody data st mp mime filename outStem proc sendRaises
    let fin := finallyCleanup body.1 media_path
    { state := fin.1
      effects := Effect.answerQuery :: (body.2.1 ++ fin.2)
      exn := body.2.2 }

/-- Number of `unlink p` effects in a trace. -/
def unlinkCount (p : String) : List Effect → Nat
  | [] => 0
  | Effect.unlink q :: es => (if q = p then 1 else 0) + unlinkCount p es
  | _ :: es => unlinkCount p es

/-! ### Helper lemmas about the filesystem model and cleanup -/

theorem mem_fsCreate_self (fs : List String) (p : String) : p ∈ fsCreate fs p := by
  unfold fsCreate
  split
  · assumption
  · exact List.mem_cons_self p fs

theorem mem_fsCreate_of_mem {fs : List String} {p : String} (q : String)
    (h : p ∈ fs) : p ∈ fsCreate fs q := by
  unfold fsCreate
  split
  · exact h
  · exact List.mem_cons_of_mem q h

theorem mem_fsUnlink {fs : List String} {p q : String} :
    p ∈ fsUnlink fs q ↔ p ∈ fs ∧ p ≠ q := by
  unfold fsUnlink
  simp [List.mem_filter]

theorem not_mem_fsUnlink_self (fs : List String) (p : String) :
    p ∉ fsUnlink fs p := by
  intro h
  exact (mem_fsUnlink.mp h).2 rfl

theorem truthy_some {s : String} (h : s ≠ "") : truthy (some s) = true := by
  unfold truthy
  have he : s.isEmpty = false := by
    rw [Bool.eq_false_iff]
    intro hh
    exact h ((String.isEmpty_iff s).mp hh)
  simp [he]

/-- Unfolding of `button_cb` when the stored-path check passes. -/
theorem button_cb_of_ok (data : String) (st : BotState) (outStem : String)
    (proc : ProcResult) (sendRaises : Bool) (mp : String)
    (hpath : st.user_data.last_media_path = some mp) (hne : mp ≠ "")
    (hex : mp ∈ st.fs) :
    button_cb data st outStem proc sendRaises =
      (let body := tryBody data st mp st.user_data.last_media_mime
          (st.user_data.last_media_filename.getD "file") outStem proc sendRaises
       let fin := finallyCleanup body.1 (some mp)
       { state := fin.1
         effects := Effect.answerQuery :: (body.2.1 ++ fin.2)
         exn := body.2.2 }) := by
  simp only [button_cb, hpath, Option.getD_some]
  rw [if_neg (not_not_intro ⟨truthy_some hne, hex⟩)]

/-- Effects of `button_cb` when the stored-path check passes. -/
theorem cb_effects_of_ok (data : String) (st : BotState) (outStem : String)
    (proc : ProcResult) (sendRaises : Bool) (mp : String)
    (hpath : st.user_data.last_media_path = some mp) (hne : mp ≠ "")
    (hex : mp ∈ st.fs) :
    (button_cb data st outStem proc sendRaises).effects =
      Effect.answerQuery ::
        ((tryBody data st mp st.user_data.last_media_mime
            (st.user_data.last_media_filename.getD "file") outStem proc
            sendRaises).2.1 ++
         (finallyCleanup (tryBody data st mp st.user_data.last_media_mime
            (st.user_data.last_media_filename.getD "file") outStem proc
            sendRaises).1 (some mp)).2) := by
  rw [button_cb_of_ok data st outStem proc sendRaises mp hpath hne hex]

/-- Final state of `button_cb` when the stored-path check passes. -/
theorem cb_state_of_ok (data : String) (st : BotState) (outStem : String)
    (proc : ProcResult) (sendRaises : Bool) (mp : String)
    (hpath : st.user_data.last_media_path = some mp) (hne : mp ≠ "")
    (hex : mp ∈ st.fs) :
    (button_cb data st outStem proc sendRaises).state =
      (finallyCleanup (tryBody data st mp st.user_data.last_media_mime
          (st.user_data.last_media_filename.getD "file") outStem proc
          sendRaises).1 (some mp)).1 := by
  rw [button_cb_of_ok data st outStem proc sendRaises mp hpath hne hex]

/-- Propagated exception of `button_cb` when the stored-path check passes. -/
theorem cb_exn_of_ok (data : String) (st : BotState) (outStem : String)
    (proc : ProcResult) (sendRaises : Bool) (mp : String)
    (hpath : st.user_data.last_media_path = some mp) (hne : mp ≠ "")
    (hex : mp ∈ st.fs) :
    (button_cb data st outStem proc sendRaises).exn =
      (tryBody data st mp st.user_data.last_media_mime
        (st.user_data.last_media_filename.getD "file") outStem proc
        sendRaises).2.2 := by
  rw [button_cb_of_ok data st outStem proc sendRaises mp hpath hne hex]

/-- Unfolding of `button_cb` when the stored-path check fails. -/
theorem button_cb_of_missing (data : String) (st : BotState) (outStem : String)
    (proc : ProcResult) (sendRaises : Bool)
    (h : st.user_data.last_media_path = none ∨
         ∃ p, st.user_data.last_media_path = some p ∧ p ∉ st.fs) :
    button_cb data st outStem proc sendRaises =
      { state := st
        effects := [Effect.answerQuery, Effect.editMessage noFileMsg]
        exn := none } := by
  rcases h with h | ⟨p, hp, hnp⟩
  · simp only [button_cb, h, Option.getD_none]
    rw [if_pos]
    rintro ⟨ht, _⟩
    simp [truthy] at ht
  · simp only [button_cb, hp, Option.getD_some]
    rw [if_pos]
    rintro ⟨_, hmem⟩
    exact hnp hmem

/-- After the `finally` block all three `user_data` keys are gone. -/
theorem finallyCleanup_user_data (st : BotState) (mo : Option String) :
    (finallyCleanup st mo).1.user_data = {} := by
  unfold finallyCleanup
  split <;> rfl

/-- After the `finally` block the input path no longer exists. -/
theorem finallyCleanup_not_mem (st : BotState) (mp : String) (hne : mp ≠ "") :
    mp ∉ (finallyCleanup st (some mp)).1.fs := by
  unfold finallyCleanup
  split
  · exact fun h => not_mem_fsUnlink_self st.fs mp (by simpa using h)
  · rename_i hcond
    intro h
    exact hcond ⟨truthy_some hne, by simpa using h⟩

/-- The `finally` block unlinks the input exactly when it still exists. -/
theorem finallyCleanup_unlinkCount (st : BotState) (mp : String) (hne : mp ≠ "") :
    unlinkCount mp (finallyCleanup st (some mp)).2 =
      if mp ∈ st.fs then 1 else 0 := by
  unfold finallyCleanup
  split
  · rename_i hcond
    have : mp ∈ st.fs := by simpa using hcond.2
    simp [unlinkCount, this]
  · rename_i hcond
    have : mp ∉ st.fs := fun h => hcond ⟨truthy_some hne, by simpa using h⟩
    simp [unlinkCount, this]

theorem unlinkCount_append (p : String) (xs ys : List Effect) :
    unlinkCount p (xs ++ ys) = unlinkCount p xs + unlinkCount p ys := by
  induction xs with
  | nil => simp [unlinkCount]
  | cons x xs ih => cases x <;> simp [unlinkCount, ih, Nat.add_assoc]

/-- Combined count of input unlinks over the body trace and the `finally`
trace. -/
theorem count_body_fin (body : BotState × List Effect × Option String)
    (mp : String) (hne : mp ≠ "") :
    unlinkCount mp (body.2.1 ++ (finallyCleanup body.1 (some mp)).2) =
      unlinkCount mp body.2.1 + (if mp ∈ body.1.fs then 1 else 0) := by
  rw [unlinkCount_append, finallyCleanup_unlinkCount _ _ hne]

/-- Through every path of the compress branch, the input file is accounted for
exactly once: either the branch itself unlinked it (only possible when the
output temp path collides with it) or it is still present for the `finally`
block. -/
theorem compressBody_count (st : BotState) (mp tmp_out : String)
    (proc : ProcResult) (sendRaises : Bool) (hmem : mp ∈ st.fs) :
    unlinkCount mp (compressBody st mp tmp_out proc sendRaises).2.1 +
      (if mp ∈ (compressBody st mp tmp_out proc sendRaises).1.fs
       then 1 else 0) = 1 := by
  unfold compressBody run_ffmpeg
  by_cases hr : proc.returncode = 0
  · simp only [hr, ne_eq, not_true_eq_false, if_neg, ite_false, if_false]
    cases sendRaises
    · by_cases hto : tmp_out = mp
      · subst hto
        simp [unlinkCount, unlinkCount_append, not_mem_fsUnlink_self]
      · have h1 : mp ∈ fsUnlink (fsCreate st.fs tmp_out) tmp_out :=
          mem_fsUnlink.mpr ⟨mem_fsCreate_of_mem tmp_out hmem,
            fun h => hto h.symm⟩
        simp [unlinkCount, unlinkCount_append, h1, Ne.symm hto, hto]
    · simp [unlinkCount, unlinkCount_append, mem_fsCreate_of_mem tmp_out hmem]
  · simp [hr, unlinkCount, unlinkCount_append,
          mem_fsCreate_of_mem tmp_out hmem]

/-- The `finally` block when the input still exists: unlink it and clear the
keys. -/
theorem finallyCleanup_mem (st : BotState) (mp : String) (hne : mp ≠ "")
    (hmem : mp ∈ st.fs) :
    finallyCleanup st (some mp) =
      ({ fs := fsUnlink st.fs mp, user_data := {} }, [Effect.unlink mp]) := by
  unfold finallyCleanup
  rw [if_pos ⟨truthy_some hne, by simpa using hmem⟩]
  rfl

/-- Unfolding of the `original` branch of the `try` body. -/
theorem tryBody_original (st : BotState) (mp : String) (mime : Option String)
    (filename outStem : String) (proc : ProcResult) (sendRaises : Bool) :
    tryBody "original" st mp mime filename outStem proc sendRaises =
      if sendRaises then
        (st, [Effect.editMessage sendingOriginalMsg], some sendExnMsg)
      else
        (st, [Effect.editMessage sendingOriginalMsg,
              Effect.sendDocument mp filename,
              Effect.editMessage sentOriginalMsg], none) := by
  unfold tryBody
  rw [if_pos rfl]

/-- Unfolding of the `compress` branch of the `try` body for a video or
animation item: the output temp file gets the `.mp4` suffix. -/
theorem tryBody_compress (st : BotState) (mp : String) (mime : Option String)
    (filename outStem : String) (proc : ProcResult) (sendRaises : Bool)
    (hmime : mime = some "video" ∨ mime = some "animation") :
    tryBody "compress" st mp mime filename outStem proc sendRaises =
      compressBody st mp (outStem ++ ".mp4") proc sendRaises := by
  unfold tryBody
  rw [if_neg (by decide), if_pos rfl]
  rcases hmime with h | h <;> simp [h]

/-- Unfolding of the `try` body on unrecognized callback data: no branch of
the `if`/`elif` matches, so the body does nothing. -/
theorem tryBody_other (data : String) (st : BotState) (mp : String)
    (mime : Option String) (filename outStem : String) (proc : ProcResult)
    (sendRaises : Bool) (hd1 : data ≠ "original") (hd2 : data ≠ "compress") :
    tryBody data st mp mime filename outStem proc sendRaises =
      (st, [], none) := by
  unfold tryBody
  rw [if_neg hd1, if_neg hd2]

/-- Unfolding of the compress branch when ffmpeg exits non-zero. -/
theorem compressBody_fail (st : BotState) (mp tmp_out : String)
    (proc : ProcResult) (sendRaises : Bool) (hr : proc.returncode ≠ 0) :
    compressBody st mp tmp_out proc sendRaises =
      ({ st with fs := fsCreate st.fs tmp_out },
       [Effect.editMessage compressingMsg,
        Effect.runProcess (ffmpeg_cmd mp tmp_out),
        Effect.logError ("ffmpeg failed: " ++ proc.stderr),
        Effect.editMessage (compressFailedMsg "ffmpeg failed")], none) := by
  unfold compressBody run_ffmpeg
  simp [hr]

/-- Unfolding of the compress branch when ffmpeg succeeds and the send does
not raise. -/
theorem compressBody_ok_send (st : BotState) (mp tmp_out : String)
    (proc : ProcResult) (hr : proc.returncode = 0) :
    compressBody st mp tmp_out proc false =
      ({ st with fs := fsUnlink (fsCreate st.fs tmp_out) tmp_out },
       [Effect.editMessage compressingMsg,
        Effect.runProcess (ffmpeg_cmd mp tmp_out),
        Effect.sendDocument tmp_out (pathName tmp_out),
        Effect.editMessage sentCompressedMsg,
        Effect.unlink tmp_out], none) := by
  unfold compressBody run_ffmpeg
  simp [hr]

/-- Unfolding of the compress branch when ffmpeg succeeds but the send
raises. -/
theorem compressBody_ok_raise (st : BotState) (mp tmp_out : String)
    (proc : ProcResult) (hr : proc.returncode = 0) :
    compressBody st mp tmp_out proc true =
      ({ st with fs := fsCreate st.fs tmp_out },
       [Effect.editMessage compressingMsg,
        Effect.runProcess (ffmpeg_cmd mp tmp_out)], some sendExnMsg) := by
  unfold compressBody run_ffmpeg
  simp [hr]

/-! ### Claim theorems -/

/-- C6: every transcode invocation runs exactly one external process, and its
argument vector is exactly the fixed profile: `-y`, the input path, the
aspect-preserving never-upscaling scale filter capped at 1280×720, libx264
with preset `veryfast` and CRF 28, aac audio at 128 kbit/s, and the output
path last. -/
theorem C6_ffmpeg_fixed_profile (input_path output_path : String)
    (proc : ProcResult) :
    Effect.runProcess ["ffmpeg", "-y", "-i", input_path, "-vf",
        "scale=\x27min(1280,iw)\x27:\x27min(720,ih)\x27:force_original_aspect_ratio=decrease",
        "-c:v", "libx264", "-preset", "veryfast", "-crf", "28",
        "-c:a", "aac", "-b:a", "128k", output_path]
      ∈ (run_ffmpeg input_path output_path proc).2 ∧
    (∀ cmd, Effect.runProcess cmd ∈ (run_ffmpeg input_path output_path proc).2 →
      cmd = ["ffmpeg", "-y", "-i", input_path, "-vf",
        "scale=\x27min(1280,iw)\x27:\x27min(720,ih)\x27:force_original_aspect_ratio=decrease",
        "-c:v", "libx264", "-preset", "veryfast", "-crf", "28",
        "-c:a", "aac", "-b:a", "128k", output_path]) := by
  constructor
  · unfold run_ffmpeg
    split <;> simp [ffmpeg_cmd]
  · intro cmd hmem
    unfold run_ffmpeg at hmem
    split at hmem <;> simp_all [ffmpeg_cmd]

/-- Witness for C6 at a concrete input. -/
theorem C6_ffmpeg_fixed_profile_witness :
    Effect.runProcess ["ffmpeg", "-y", "-i", "in.mp4", "-vf",
        "scale=\x27min(1280,iw)\x27:\x27min(720,ih)\x27:force_original_aspect_ratio=decrease",
        "-c:v", "libx264", "-preset", "veryfast", "-crf", "28",
        "-c:a", "aac", "-b:a", "128k", "out.mp4"]
      ∈ (run_ffmpeg "in.mp4" "out.mp4" ⟨0, ""⟩).2 :=
  (C6_ffmpeg_fixed_profile "in.mp4" "out.mp4" ⟨0, ""⟩).1

/-- C8: a decision event whose stored path is unset, or set but no longer on
disk, replies with the no-file diagnostic, leaves the state unchanged, and
performs no document send, no process invocation and no unlink. -/
theorem C8_missing_file_diagnostic (data : String) (st : BotState)
    (outStem : String) (proc : ProcResult) (sendRaises : Bool)
    (h : st.user_data.last_media_path = none ∨
         ∃ p, st.user_data.last_media_path = some p ∧ p ∉ st.fs) :
    (button_cb data st outStem proc sendRaises).effects =
        [Effect.answerQuery, Effect.editMessage noFileMsg] ∧
    (button_cb data st outStem proc sendRaises).state = st ∧
    (button_cb data st outStem proc sendRaises).exn = none ∧
    (∀ p f, Effect.sendDocument p f ∉
        (button_cb data st outStem proc sendRaises).effects) ∧
    (∀ c, Effect.runProcess c ∉
        (button_cb data st outStem proc sendRaises).effects) ∧
    (∀ p, Effect.unlink p ∉
        (button_cb data st outStem proc sendRaises).effects) := by
  rw [button_cb_of_missing data st outStem proc sendRaises h]
  refine ⟨rfl, rfl, rfl, ?_, ?_, ?_⟩ <;> intros <;> simp

/-- Witness for C8: a stale decision event on the empty session. -/
theorem C8_missing_file_diagnostic_witness :
    (button_cb "original" ⟨[], {}⟩ "/tmp/o" ⟨0, ""⟩ false).effects =
      [Effect.answerQuery, Effect.editMessage noFileMsg] :=
  (C8_missing_file_diagnostic "original" ⟨[], {}⟩ "/tmp/o" ⟨0, ""⟩ false
    (Or.inl rfl)).1

/-- C2: every decision event that passes the stored-file check releases the
input file exactly once over the whole handler run (decision body plus
`finally` block) — on the original-send, compress-success and
compress-failure branches alike — and the input no longer exists on storage
afterwards. -/
theorem C2_input_released_exactly_once (data : String) (st : BotState)
    (outStem : String) (proc : ProcResult) (sendRaises : Bool) (mp : String)
    (hpath : st.user_data.last_media_path = some mp) (hne : mp ≠ "")
    (hex : mp ∈ st.fs) :
    unlinkCount mp (button_cb data st outStem proc sendRaises).effects = 1 ∧
    mp ∉ (button_cb data st outStem proc sendRaises).state.fs := by
  constructor
  · rw [cb_effects_of_ok data st outStem proc sendRaises mp hpath hne hex]
    simp only [unlinkCount]
    rw [count_body_fin _ mp hne]
    by_cases hd1 : data = "original"
    · subst hd1
      cases sendRaises <;> simp [tryBody, unlinkCount, hex]
    · by_cases hd2 : data = "compress"
      · subst hd2
        simp only [tryBody, hd1, if_false, if_pos rfl, reduceIte]
        exact compressBody_count st mp _ proc sendRaises hex
      · simp [tryBody, hd1, hd2, unlinkCount, hex]
  · rw [cb_state_of_ok data st outStem proc sendRaises mp hpath hne hex]
    exact finallyCleanup_not_mem _ _ hne

/-- Witness for C2: the concrete original-send run. -/
theorem C2_input_released_exactly_once_witness :
    unlinkCount "/tmp/in.mp4"
      (button_cb "original"
        ⟨["/tmp/in.mp4"], ⟨some "/tmp/in.mp4", some "video", some "clip.mp4"⟩⟩
        "/tmp/out" ⟨0, ""⟩ false).effects = 1 :=
  (C2_input_released_exactly_once "original"
    ⟨["/tmp/in.mp4"], ⟨some "/tmp/in.mp4", some "video", some "clip.mp4"⟩⟩
    "/tmp/out" ⟨0, ""⟩ false "/tmp/in.mp4" rfl (by decide)
    (List.mem_singleton.mpr rfl)).1

/-- C1 is false on the code: after a second upload by the same user the first
upload's downloaded temp file still exists on storage and no unlink was
performed — `handle_media` merely overwrites the `user_data` keys. -/
theorem C1_counterexample :
    ((handle_media ⟨MediaKind.video, some "a.mp4"⟩ ⟨[], {}⟩ "/tmp/t1").1.user_data.last_media_path
        = some "/tmp/t1.mp4") ∧
    "/tmp/t1.mp4" ∈ (handle_media ⟨MediaKind.video, some "b.mp4"⟩
        (handle_media ⟨MediaKind.video, some "a.mp4"⟩ ⟨[], {}⟩ "/tmp/t1").1
        "/tmp/t2").1.fs ∧
    unlinkCount "/tmp/t1.mp4"
      ((handle_media ⟨MediaKind.video, some "a.mp4"⟩ ⟨[], {}⟩ "/tmp/t1").2 ++
       (handle_media ⟨MediaKind.video, some "b.mp4"⟩
        (handle_media ⟨MediaKind.video, some "a.mp4"⟩ ⟨[], {}⟩ "/tmp/t1").1
        "/tmp/t2").2) = 0 := by
  decide

/-- C1 (amended): handling a second upload records the new item — the session
keys point to the new temp path — but the first upload's temp file is not
deleted: it remains on storage, merely unreferenced. -/
theorem C1_amended_second_upload_leaves_first_file (st : BotState)
    (k1 k2 : MediaKind) (fn1 fn2 s1 s2 : String)
    (h1 : k1 ≠ MediaKind.other) (h2 : k2 ≠ MediaKind.other) :
    ((handle_media ⟨k2, some fn2⟩ (handle_media ⟨k1, some fn1⟩ st s1).1 s2).1.user_data.last_media_path
        = some (s2 ++ pathSuffix fn2)) ∧
    (s1 ++ pathSuffix fn1) ∈
      (handle_media ⟨k2, some fn2⟩ (handle_media ⟨k1, some fn1⟩ st s1).1 s2).1.fs ∧
    unlinkCount (s1 ++ pathSuffix fn1)
      ((handle_media ⟨k1, some fn1⟩ st s1).2 ++
       (handle_media ⟨k2, some fn2⟩ (handle_media ⟨k1, some fn1⟩ st s1).1 s2).2) = 0 := by
  cases k1 <;> cases k2 <;> simp_all [handle_media, ingest, unlinkCount] <;>
    exact mem_fsCreate_of_mem _ (mem_fsCreate_self st.fs _)

/-- Witness for the amended C1: two concrete video uploads. -/
theorem C1_amended_second_upload_leaves_first_file_witness :
    "/tmp/t1.mp4" ∈
      (handle_media ⟨MediaKind.video, some "b.avi"⟩
        (handle_media ⟨MediaKind.video, some "a.mp4"⟩ ⟨[], {}⟩ "/tmp/t1").1
        "/tmp/t2").1.fs :=
  (C1_amended_second_upload_leaves_first_file ⟨[], {}⟩ MediaKind.video
    MediaKind.video "a.mp4" "b.avi" "/tmp/t1" "/tmp/t2"
    (by decide) (by decide)).2.1

/-- C3 is false on the code: when the transcode fails, the failure branch
returns after editing the message, and neither it nor the `finally` block
unlinks the acquired output temp file — the output path is still on storage
when the handler finishes, and no unlink of it ever appears in the trace. -/
theorem C3_counterexample :
    "/tmp/tmpout.mp4" ∈ (button_cb "compress"
      ⟨["/tmp/in.mp4"], ⟨some "/tmp/in.mp4", some "video", some "clip.mp4"⟩⟩
      "/tmp/tmpout" ⟨1, "boom"⟩ false).state.fs ∧
    unlinkCount "/tmp/tmpout.mp4" (button_cb "compress"
      ⟨["/tmp/in.mp4"], ⟨some "/tmp/in.mp4", some "video", some "clip.mp4"⟩⟩
      "/tmp/tmpout" ⟨1, "boom"⟩ false).effects = 0 := by
  decide

/-- C3 (amended): on a failed transcode the handler releases only the input
file; the acquired output temp path is never unlinked and remains on storage
after the handler returns. -/
theorem C3_amended_failure_leaks_output (st : BotState) (outStem : String)
    (proc : ProcResult) (sendRaises : Bool) (mp : String)
    (hpath : st.user_data.last_media_path = some mp) (hne : mp ≠ "")
    (hex : mp ∈ st.fs)
    (hmime : st.user_data.last_media_mime = some "video" ∨
             st.user_data.last_media_mime = some "animation")
    (hr : proc.returncode ≠ 0) (hout : outStem ++ ".mp4" ≠ mp) :
    (outStem ++ ".mp4") ∈
      (button_cb "compress" st outStem proc sendRaises).state.fs ∧
    unlinkCount (outStem ++ ".mp4")
      (button_cb "compress" st outStem proc sendRaises).effects = 0 ∧
    mp ∉ (button_cb "compress" st outStem proc sendRaises).state.fs := by
  have hb := tryBody_compress st mp st.user_data.last_media_mime
    (st.user_data.last_media_filename.getD "file") outStem proc sendRaises hmime
  rw [compressBody_fail st mp (outStem ++ ".mp4") proc sendRaises hr] at hb
  refine ⟨?_, ?_, ?_⟩
  · rw [cb_state_of_ok "compress" st outStem proc sendRaises mp hpath hne hex,
        hb, finallyCleanup_mem _ mp hne (mem_fsCreate_of_mem _ hex)]
    exact mem_fsUnlink.mpr ⟨mem_fsCreate_self st.fs _, hout⟩
  · rw [cb_effects_of_ok "compress" st outStem proc sendRaises mp hpath hne hex,
        hb, finallyCleanup_mem _ mp hne (mem_fsCreate_of_mem _ hex)]
    simp [unlinkCount, unlinkCount_append, Ne.symm hout]
  · rw [cb_state_of_ok "compress" st outStem proc sendRaises mp hpath hne hex]
    exact finallyCleanup_not_mem _ _ hne

/-- Witness for the amended C3 at a concrete failing transcode. -/
theorem C3_amended_failure_leaks_output_witness :
    "/tmp/tmpout.mp4" ∈ (button_cb "compress"
      ⟨["/tmp/in.mp4"], ⟨some "/tmp/in.mp4", some "video", some "clip.mp4"⟩⟩
      "/tmp/tmpout" ⟨1, "boom"⟩ true).state.fs :=
  (C3_amended_failure_leaks_output
    ⟨["/tmp/in.mp4"], ⟨some "/tmp/in.mp4", some "video", some "clip.mp4"⟩⟩
    "/tmp/tmpout" ⟨1, "boom"⟩ true "/tmp/in.mp4" rfl (by decide)
    (List.mem_singleton.mpr rfl) (Or.inl rfl) (by decide) (by decide)).1

/-- C4 is false on the code: on a non-zero exit the raised error carries the
fixed text `"ffmpeg failed"`, not the process's stderr stream, and the user
is shown that fixed text — the stderr `"D"` appears in neither. -/
theorem C4_counterexample :
    (run_ffmpeg "/tmp/in.mp4" "/tmp/out.mp4" ⟨1, "D"⟩).1 =
      Except.error "ffmpeg failed" ∧
    "ffmpeg failed" ≠ "D" ∧
    Effect.editMessage (compressFailedMsg "ffmpeg failed") ∈
      (button_cb "compress"
        ⟨["/tmp/in.mp4"], ⟨some "/tmp/in.mp4", some "video", some "clip.mp4"⟩⟩
        "/tmp/out" ⟨1, "D"⟩ false).effects ∧
    Effect.editMessage (compressFailedMsg "D") ∉
      (button_cb "compress"
        ⟨["/tmp/in.mp4"], ⟨some "/tmp/in.mp4", some "video", some "clip.mp4"⟩⟩
        "/tmp/out" ⟨1, "D"⟩ false).effects := by
  refine ⟨rfl, by decide, by decide, by decide⟩

/-- C4 (amended): on a non-zero exit the process's stderr goes only to the
error log; the raised failure carries the fixed message `"ffmpeg failed"`,
and the user-visible report is that fixed message, not the diagnostic. -/
theorem C4_amended_fixed_error_message (input output : String)
    (proc : ProcResult) (st : BotState) (outStem : String) (sendRaises : Bool)
    (mp : String) (hr : proc.returncode ≠ 0)
    (hpath : st.user_data.last_media_path = some mp) (hne : mp ≠ "")
    (hex : mp ∈ st.fs)
    (hmime : st.user_data.last_media_mime = some "video" ∨
             st.user_data.last_media_mime = some "animation") :
    (run_ffmpeg input output proc).1 = Except.error "ffmpeg failed" ∧
    Effect.logError ("ffmpeg failed: " ++ proc.stderr) ∈
      (run_ffmpeg input output proc).2 ∧
    Effect.editMessage (compressFailedMsg "ffmpeg failed") ∈
      (button_cb "compress" st outStem proc sendRaises).effects ∧
    Effect.logError ("ffmpeg failed: " ++ proc.stderr) ∈
      (button_cb "compress" st outStem proc sendRaises).effects := by
  have hb := tryBody_compress st mp st.user_data.last_media_mime
    (st.user_data.last_media_filename.getD "file") outStem proc sendRaises hmime
  rw [compressBody_fail st mp (outStem ++ ".mp4") proc sendRaises hr] at hb
  refine ⟨?_, ?_, ?_, ?_⟩
  · unfold run_ffmpeg
    simp [hr]
  · unfold run_ffmpeg
    simp [hr]
  · rw [cb_effects_of_ok "compress" st outStem proc sendRaises mp hpath hne hex,
        hb]
    simp
  · rw [cb_effects_of_ok "compress" st outStem proc sendRaises mp hpath hne hex,
        hb]
    simp

/-- Witness for the amended C4 at a concrete failing transcode. -/
theorem C4_amended_fixed_error_message_witness :
    Effect.editMessage (compressFailedMsg "ffmpeg failed") ∈
      (button_cb "compress"
        ⟨["/tmp/in.mp4"], ⟨some "/tmp/in.mp4", some "video", some "clip.mp4"⟩⟩
        "/tmp/out" ⟨1, "diag"⟩ false).effects :=
  (C4_amended_fixed_error_message "/tmp/in.mp4" "/tmp/out.mp4" ⟨1, "diag"⟩
    ⟨["/tmp/in.mp4"], ⟨some "/tmp/in.mp4", some "video", some "clip.mp4"⟩⟩
    "/tmp/out" false "/tmp/in.mp4" (by decide) rfl (by decide)
    (List.mem_singleton.mpr rfl) (Or.inl rfl)).2.2.1

/-- C5 is false on the code: the compressed output is sent with
`Path(out_path).name` — the temp file's basename — as its filename.  With the
stored display name `clip.mp4` the document goes out as `tmpabc.mp4`, no send
carries `clip.mp4`, and replacing the display name by `other.avi` changes
nothing in the trace, so the outgoing filename is not derived from the
display name at all. -/
theorem C5_counterexample :
    Effect.sendDocument "/tmp/tmpabc.mp4" "tmpabc.mp4" ∈
      (button_cb "compress"
        ⟨["/tmp/in.mp4"], ⟨some "/tmp/in.mp4", some "video", some "clip.mp4"⟩⟩
        "/tmp/tmpabc" ⟨0, ""⟩ false).effects ∧
    Effect.sendDocument "/tmp/tmpabc.mp4" "clip.mp4" ∉
      (button_cb "compress"
        ⟨["/tmp/in.mp4"], ⟨some "/tmp/in.mp4", some "video", some "clip.mp4"⟩⟩
        "/tmp/tmpabc" ⟨0, ""⟩ false).effects ∧
    (button_cb "compress"
        ⟨["/tmp/in.mp4"], ⟨some "/tmp/in.mp4", some "video", some "clip.mp4"⟩⟩
        "/tmp/tmpabc" ⟨0, ""⟩ false).effects =
      (button_cb "compress"
        ⟨["/tmp/in.mp4"], ⟨some "/tmp/in.mp4", some "video", some "other.avi"⟩⟩
        "/tmp/tmpabc" ⟨0, ""⟩ false).effects := by
  decide

/-- C5 (amended): on a successful compress of a video or animation the output
is sent as a document whose filename is the basename of the temporary output
path, independent of the original upload's display name. -/
theorem C5_amended_output_named_after_temp (st : BotState) (outStem : String)
    (proc : ProcResult) (mp : String)
    (hpath : st.user_data.last_media_path = some mp) (hne : mp ≠ "")
    (hex : mp ∈ st.fs)
    (hmime : st.user_data.last_media_mime = some "video" ∨
             st.user_data.last_media_mime = some "animation")
    (hr : proc.returncode = 0) :
    Effect.sendDocument (outStem ++ ".mp4") (pathName (outStem ++ ".mp4")) ∈
      (button_cb "compress" st outStem proc false).effects := by
  have hb := tryBody_compress st mp st.user_data.last_media_mime
    (st.user_data.last_media_filename.getD "file") outStem proc false hmime
  rw [compressBody_ok_send st mp (outStem ++ ".mp4") proc hr] at hb
  rw [cb_effects_of_ok "compress" st outStem proc false mp hpath hne hex, hb]
  simp

/-- Witness for the amended C5 at a concrete successful compress. -/
theorem C5_amended_output_named_after_temp_witness :
    Effect.sendDocument "/tmp/tmpabc.mp4" (pathName "/tmp/tmpabc.mp4") ∈
      (button_cb "compress"
        ⟨["/tmp/in.mp4"], ⟨some "/tmp/in.mp4", some "video", some "clip.mp4"⟩⟩
        "/tmp/tmpabc" ⟨0, ""⟩ false).effects :=
  C5_amended_output_named_after_temp
    ⟨["/tmp/in.mp4"], ⟨some "/tmp/in.mp4", some "video", some "clip.mp4"⟩⟩
    "/tmp/tmpabc" ⟨0, ""⟩ "/tmp/in.mp4" rfl (by decide)
    (List.mem_singleton.mpr rfl) (Or.inl rfl) rfl

/-- C7: after a first decision event that passes the existence check, the
pending item is consumed — the stored path key is cleared and the backing
file deleted — so a second decision event with no upload in between finds
nothing: it replies with the no-file diagnostic and changes nothing. -/
theorem C7_take_twice (data1 data2 : String) (st : BotState) (mp : String)
    (o1 o2 : String) (pr1 pr2 : ProcResult) (b1 b2 : Bool)
    (hpath : st.user_data.last_media_path = some mp) (hne : mp ≠ "")
    (hex : mp ∈ st.fs) :
    (button_cb data1 st o1 pr1 b1).state.user_data.last_media_path = none ∧
    mp ∉ (button_cb data1 st o1 pr1 b1).state.fs ∧
    (button_cb data2 (button_cb data1 st o1 pr1 b1).state o2 pr2 b2).effects =
      [Effect.answerQuery, Effect.editMessage noFileMsg] ∧
    (button_cb data2 (button_cb data1 st o1 pr1 b1).state o2 pr2 b2).state =
      (button_cb data1 st o1 pr1 b1).state := by
  have h1 : (button_cb data1 st o1 pr1 b1).state.user_data = {} := by
    rw [cb_state_of_ok data1 st o1 pr1 b1 mp hpath hne hex]
    exact finallyCleanup_user_data _ _
  have hnone :
      (button_cb data1 st o1 pr1 b1).state.user_data.last_media_path = none := by
    rw [h1]
  refine ⟨hnone, ?_, ?_, ?_⟩
  · rw [cb_state_of_ok data1 st o1 pr1 b1 mp hpath hne hex]
    exact finallyCleanup_not_mem _ _ hne
  · rw [button_cb_of_missing data2 _ o2 pr2 b2 (Or.inl hnone)]
  · rw [button_cb_of_missing data2 _ o2 pr2 b2 (Or.inl hnone)]

/-- Witness for C7: two consecutive `original` clicks on a stored item. -/
theorem C7_take_twice_witness :
    (button_cb "original"
      (button_cb "original"
        ⟨["/tmp/in.mp4"], ⟨some "/tmp/in.mp4", some "video", some "clip.mp4"⟩⟩
        "/tmp/o1" ⟨0, ""⟩ false).state
      "/tmp/o2" ⟨0, ""⟩ false).effects =
      [Effect.answerQuery, Effect.editMessage noFileMsg] :=
  (C7_take_twice "original" "original"
    ⟨["/tmp/in.mp4"], ⟨some "/tmp/in.mp4", some "video", some "clip.mp4"⟩⟩
    "/tmp/in.mp4" "/tmp/o1" "/tmp/o2" ⟨0, ""⟩ ⟨0, ""⟩ false false rfl
    (by decide) (List.mem_singleton.mpr rfl)).2.2.1

/-- C9: a decision event with unrecognized callback data whose stored file
exists silently consumes the pending item: no document send, no process
invocation, no message at all — yet the input file is unlinked and all three
session keys are cleared. -/
theorem C9_unknown_data_silently_consumes (data : String) (st : BotState)
    (outStem : String) (proc : ProcResult) (sendRaises : Bool) (mp : String)
    (hd1 : data ≠ "original") (hd2 : data ≠ "compress")
    (hpath : st.user_data.last_media_path = some mp) (hne : mp ≠ "")
    (hex : mp ∈ st.fs) :
    (button_cb data st outStem proc sendRaises).effects =
      [Effect.answerQuery, Effect.unlink mp] ∧
    (button_cb data st outStem proc sendRaises).state =
      ⟨fsUnlink st.fs mp, {}⟩ ∧
    (button_cb data st outStem proc sendRaises).exn = none ∧
    mp ∉ (button_cb data st outStem proc sendRaises).state.fs ∧
    (∀ p f, Effect.sendDocument p f ∉
        (button_cb data st outStem proc sendRaises).effects) ∧
    (∀ c, Effect.runProcess c ∉
        (button_cb data st outStem proc sendRaises).effects) ∧
    (∀ t, Effect.editMessage t ∉
        (button_cb data st outStem proc sendRaises).effects) := by
  have hb := tryBody_other data st mp st.user_data.last_media_mime
    (st.user_data.last_media_filename.getD "file") outStem proc sendRaises hd1 hd2
  have heff := cb_effects_of_ok data st outStem proc sendRaises mp hpath hne hex
  have hst := cb_state_of_ok data st outStem proc sendRaises mp hpath hne hex
  have hexn := cb_exn_of_ok data st outStem proc sendRaises mp hpath hne hex
  rw [hb, finallyCleanup_mem st mp hne hex] at heff hst
  rw [hb] at hexn
  refine ⟨by rw [heff]; rfl, by rw [hst], by rw [hexn], ?_, ?_, ?_, ?_⟩
  · rw [hst]
    exact fun h => not_mem_fsUnlink_self st.fs mp h
  · intro p f
    rw [heff]
    simp
  · intro c
    rw [heff]
    simp
  · intro t
    rw [heff]
    simp

/-- Witness for C9: an unrecognized callback token on a stored item. -/
theorem C9_unknown_data_silently_consumes_witness :
    (button_cb "bogus"
      ⟨["/tmp/in.mp4"], ⟨some "/tmp/in.mp4", some "video", some "clip.mp4"⟩⟩
      "/tmp/o" ⟨0, ""⟩ false).effects =
      [Effect.answerQuery, Effect.unlink "/tmp/in.mp4"] :=
  (C9_unknown_data_silently_consumes "bogus"
    ⟨["/tmp/in.mp4"], ⟨some "/tmp/in.mp4", some "video", some "clip.mp4"⟩⟩
    "/tmp/o" ⟨0, ""⟩ false "/tmp/in.mp4" (by decide) (by decide) rfl
    (by decide) (List.mem_singleton.mpr rfl)).1

/-- C10: whatever the decision body does — including the document send
raising, modelled by `sendRaises = true`, on the original branch and the
compress-success branch — the `finally` block still unlinks the input file
and clears all three session keys before the exception leaves the handler;
on the original branch the exception does propagate. -/
theorem C10_cleanup_survives_exception (data : String) (st : BotState)
    (outStem : String) (proc : ProcResult) (mp : String)
    (hpath : st.user_data.last_media_path = some mp) (hne : mp ≠ "")
    (hex : mp ∈ st.fs) :
    (button_cb data st outStem proc true).state.user_data.last_media_path
        = none ∧
    (button_cb data st outStem proc true).state.user_data.last_media_mime
        = none ∧
    (button_cb data st outStem proc true).state.user_data.last_media_filename
        = none ∧
    mp ∉ (button_cb data st outStem proc true).state.fs ∧
    (data = "original" →
      (button_cb data st outStem proc true).exn = some sendExnMsg) := by
  have h1 : (button_cb data st outStem proc true).state.user_data = {} := by
    rw [cb_state_of_ok data st outStem proc true mp hpath hne hex]
    exact finallyCleanup_user_data _ _
  refine ⟨by rw [h1], by rw [h1], by rw [h1], ?_, ?_⟩
  · rw [cb_state_of_ok data st outStem proc true mp hpath hne hex]
    exact finallyCleanup_not_mem _ _ hne
  · intro hd
    subst hd
    rw [cb_exn_of_ok "original" st outStem proc true mp hpath hne hex,
        tryBody_original st mp st.user_data.last_media_mime
          (st.user_data.last_media_filename.getD "file") outStem proc true]
    rfl

/-- Witness for C10: a raising send on the original branch. -/
theorem C10_cleanup_survives_exception_witness :
    (button_cb "original"
      ⟨["/tmp/in.mp4"], ⟨some "/tmp/in.mp4", some "video", some "clip.mp4"⟩⟩
      "/tmp/o" ⟨0, ""⟩ true).state.user_data.last_media_path = none :=
  (C10_cleanup_survives_exception "original"
    ⟨["/tmp/in.mp4"], ⟨some "/tmp/in.mp4", some "video", some "clip.mp4"⟩⟩
    "/tmp/o" ⟨0, ""⟩ "/tmp/in.mp4" rfl (by decide)
    (List.mem_singleton.mpr rfl)).1

end TelegramVideo
